import Mathlib

/-!
Verification of the wazbean WebAssembly wrapper (src/wazbean_src/wazbean_wrapper.cc).

The repository contains a single C-linkage function, parse_bql_to_json, that
bridges a text input to a text output through two external collaborators:

  * beancount::parser::ParseString(text, filename) returning a
    std::unique_ptr<beancount::Ledger> (null on failure), and
  * google::protobuf::util::MessageToJsonString(message, &output, options)
    returning a status.

We embed the wrapper shallowly.  The external collaborators are opaque to this
repository, so they are parameters of the embedding (the structure ExtEnv
below); the ledger type is an arbitrary type parameter L.  The process-wide
buffer std::string result_json is passed as explicit state.  Each call is
instrumented with a trace of the external invocations it performs, so that
claims of the form "the serializer is never invoked" or "the parser is invoked
exactly once" are statable.

One point of external semantics matters and is modelled from the documented
contract of the protobuf library: MessageToJsonString APPENDS the produced
JSON to its output string (json_util.h: "Converts from protobuf message to
JSON and appends it to |output|").  The wrapper passes the global buffer as
that output string and does not clear it on the success path, while the three
error branches overwrite the buffer by plain assignment.
-/

/-- The subset of google::protobuf::util::JsonPrintOptions read by the JSON
printer.  Every field of the C++ struct defaults to false. -/
structure JsonPrintOptions where
  add_whitespace : Bool := false
  always_print_primitive_fields : Bool := false
  always_print_enums_as_ints : Bool := false
  preserve_proto_field_names : Bool := false
deriving DecidableEq, Repr

/-- One invocation of an external collaborator performed by the wrapper,
recorded with the exact arguments passed. -/
inductive ExtEvent (L : Type) where
  | parseCall (text : String) (filename : String)
  | serializeCall (ledger : L) (options : JsonPrintOptions)
deriving DecidableEq, Repr

/-- The two external collaborators the wrapper delegates to, over an abstract
ledger type L.  parseString models beancount::parser::ParseString: it takes
the raw text and a filename label and returns an owned ledger or null (none).
messageToJsonString models google::protobuf::util::MessageToJsonString viewed
as a pure function of the message and the options: Except.ok out means the
status is ok and out is the JSON text appended to the output string;
Except.error e means a non-ok status, with e whatever text the printer had
appended to the output string before failing. -/
structure ExtEnv (L : Type) where
  parseString : String → String → Option L
  messageToJsonString : L → JsonPrintOptions → Except String String

/-- The string literal assigned to result_json when the input pointer is
null: {"error": "Input query was null."} -/
def nullInputPayload : String := "\x7b\"error\": \"Input query was null.\"\x7d"

/-- The string literal assigned to result_json when ParseString returns a
null ledger: {"error": "Parser returned a null ledger."} -/
def nullLedgerPayload : String := "\x7b\"error\": \"Parser returned a null ledger.\"\x7d"

/-- The string literal assigned to result_json when MessageToJsonString
returns a non-ok status: {"error": "Failed to serialize ledger to JSON."} -/
def serializeFailPayload : String := "\x7b\"error\": \"Failed to serialize ledger to JSON.\"\x7d"

/-- The local JsonPrintOptions value built by the wrapper: json_options is
default-constructed and then add_whitespace and always_print_primitive_fields
are set to true. -/
def wrapperJsonOptions : JsonPrintOptions :=
  { add_whitespace := true, always_print_primitive_fields := true }

/-- Shallow embedding of parse_bql_to_json.

Arguments: the external environment, the argument query_string (none models a
null const char pointer), and the contents of the global buffer result_json
at entry.  Result: the value returned by the function (none would model a
null pointer; the code returns result_json.c_str(), modelled as some of the
final buffer contents), the contents of result_json after the call, and the
trace of external invocations performed, in order.

The branch structure follows the C++ source line by line:
  * null input: assign the null-input payload to result_json and return it;
  * call ParseString(query_string, "<wazbean>"); if the ledger is null,
    assign the null-ledger payload to result_json and return it;
  * build json_options with the two flags set, call
    MessageToJsonString(*ledger, &result_json, json_options), which appends
    its output to result_json; if the status is not ok, assign the
    serialization-failure payload to result_json and return it;
  * otherwise return result_json. -/
def parse_bql_to_json {L : Type} (env : ExtEnv L) (query_string : Option String)
    (result_json : String) : Option String × String × List (ExtEvent L) :=
  match query_string with
  | none =>
      let result_json := nullInputPayload
      (some result_json, result_json, [])
  | some q =>
      match env.parseString q "<wazbean>" with
      | none =>
          let result_json := nullLedgerPayload
          (some result_json, result_json, [ExtEvent.parseCall q "<wazbean>"])
      | some ledger =>
          match env.messageToJsonString ledger wrapperJsonOptions with
          | Except.error e =>
              -- the printer appended e to result_json before failing; the
              -- wrapper then overwrites the buffer by assignment
              let result_json := result_json ++ e
              let result_json := serializeFailPayload
              (some result_json, result_json,
                [ExtEvent.parseCall q "<wazbean>",
                 ExtEvent.serializeCall ledger wrapperJsonOptions])
          | Except.ok out =>
              let result_json := result_json ++ out
              (some result_json, result_json,
                [ExtEvent.parseCall q "<wazbean>",
                 ExtEvent.serializeCall ledger wrapperJsonOptions])

/-- A sequence of calls to parse_bql_to_json within one process: the global
buffer persists from each call to the next.  Returns the list of returned
values, in order, and the final buffer contents. -/
def runCalls {L : Type} (env : ExtEnv L) (buf : String) :
    List (Option String) → List (Option String) × String
  | [] => ([], buf)
  | q :: qs =>
      let r := parse_bql_to_json env q buf
      let rest := runCalls env r.2.1 qs
      (r.1 :: rest.1, rest.2)

/-- A concrete environment over the unit ledger type in which parsing always
succeeds and serialization always succeeds with output j. -/
def okEnv (j : String) : ExtEnv Unit :=
  { parseString := fun _ _ => some ()
    messageToJsonString := fun _ _ => Except.ok j }

/-- A concrete environment in which ParseString always returns a null
ledger. -/
def parseFailEnv : ExtEnv Unit :=
  { parseString := fun _ _ => none
    messageToJsonString := fun _ _ => Except.ok "" }

/-- A concrete environment in which parsing succeeds but serialization always
fails with a non-ok status after appending the text boom. -/
def serializeFailEnv : ExtEnv Unit :=
  { parseString := fun _ _ => some ()
    messageToJsonString := fun _ _ => Except.error "boom" }

/-- Exhaustive case analysis of one call to parse_bql_to_json: exactly one of
four branch shapes occurs, each with its exact return value, final buffer and
invocation trace. -/
theorem parse_bql_to_json_spec {L : Type} (env : ExtEnv L) (input : Option String)
    (buf : String) :
    (input = none ∧
      parse_bql_to_json env input buf =
        (some nullInputPayload, nullInputPayload, [])) ∨
    (∃ q, input = some q ∧ env.parseString q "<wazbean>" = none ∧
      parse_bql_to_json env input buf =
        (some nullLedgerPayload, nullLedgerPayload,
         [ExtEvent.parseCall q "<wazbean>"])) ∨
    (∃ q l e, input = some q ∧ env.parseString q "<wazbean>" = some l ∧
      env.messageToJsonString l wrapperJsonOptions = Except.error e ∧
      parse_bql_to_json env input buf =
        (some serializeFailPayload, serializeFailPayload,
         [ExtEvent.parseCall q "<wazbean>",
          ExtEvent.serializeCall l wrapperJsonOptions])) ∨
    (∃ q l out, input = some q ∧ env.parseString q "<wazbean>" = some l ∧
      env.messageToJsonString l wrapperJsonOptions = Except.ok out ∧
      parse_bql_to_json env input buf =
        (some (buf ++ out), buf ++ out,
         [ExtEvent.parseCall q "<wazbean>",
          ExtEvent.serializeCall l wrapperJsonOptions])) := by
  cases input with
  | none => exact Or.inl ⟨rfl, rfl⟩
  | some q =>
    cases hp : env.parseString q "<wazbean>" with
    | none =>
      exact Or.inr (Or.inl ⟨q, rfl, hp, by simp [parse_bql_to_json, hp]⟩)
    | some l =>
      cases hs : env.messageToJsonString l wrapperJsonOptions with
      | error e =>
        exact Or.inr (Or.inr (Or.inl
          ⟨q, l, e, rfl, hp, hs, by simp [parse_bql_to_json, hp, hs]⟩))
      | ok out =>
        exact Or.inr (Or.inr (Or.inr
          ⟨q, l, out, rfl, hp, hs, by simp [parse_bql_to_json, hp, hs]⟩))

/-- Claim C3: for the null input pointer, parse_bql_to_json returns exactly
the fixed null-input error payload and nothing else, for every environment
and every prior buffer contents. -/
theorem C3_null_input_returns_fixed_payload {L : Type} (env : ExtEnv L)
    (buf : String) :
    (parse_bql_to_json env none buf).1 = some nullInputPayload := rfl

/-- Claim C4: for every non-null input on which the external parser returns a
null ledger, parse_bql_to_json returns exactly the fixed null-ledger error
payload, and the serializer is never invoked on that call. -/
theorem C4_null_ledger_payload_no_serialize {L : Type} (env : ExtEnv L)
    (q buf : String) (h : env.parseString q "<wazbean>" = none) :
    (parse_bql_to_json env (some q) buf).1 = some nullLedgerPayload ∧
    ∀ e ∈ (parse_bql_to_json env (some q) buf).2.2,
      ∀ l o, e ≠ ExtEvent.serializeCall l o := by
  refine ⟨by simp [parse_bql_to_json, h], ?_⟩
  intro e he l o
  simp [parse_bql_to_json, h] at he
  simp [he]

/-- Witness for C4 at a concrete environment where the parser always returns
a null ledger. -/
theorem C4_null_ledger_payload_no_serialize_witness :
    (parse_bql_to_json parseFailEnv (some "q") "STALE").1 = some nullLedgerPayload ∧
    ∀ e ∈ (parse_bql_to_json parseFailEnv (some "q") "STALE").2.2,
      ∀ l o, e ≠ ExtEvent.serializeCall l o :=
  C4_null_ledger_payload_no_serialize parseFailEnv "q" "STALE" rfl

/-- Claim C5: for every non-null input on which the serializer reports a
non-ok status, parse_bql_to_json returns exactly the fixed serialization
error payload, independent of whatever text the printer had produced, so no
partial serialization output appears in the returned string. -/
theorem C5_serialize_fail_fixed_payload {L : Type} (env : ExtEnv L)
    (q buf : String) (l : L) (e : String)
    (hp : env.parseString q "<wazbean>" = some l)
    (hs : env.messageToJsonString l wrapperJsonOptions = Except.error e) :
    (parse_bql_to_json env (some q) buf).1 = some serializeFailPayload := by
  simp [parse_bql_to_json, hp, hs]

/-- Witness for C5 at a concrete environment where serialization fails after
producing the text boom. -/
theorem C5_serialize_fail_fixed_payload_witness :
    (parse_bql_to_json serializeFailEnv (some "q") "STALE").1 =
      some serializeFailPayload :=
  C5_serialize_fail_fixed_payload serializeFailEnv "q" "STALE" () "boom" rfl rfl

/-- Claim C6: on every call, every serializer invocation in the trace carries
exactly the two formatting options add_whitespace and
always_print_primitive_fields set to true, the remaining options left at
their default false. -/
theorem C6_serializer_options {L : Type} (env : ExtEnv L)
    (input : Option String) (buf : String) :
    ∀ e ∈ (parse_bql_to_json env input buf).2.2, ∀ l o,
      e = ExtEvent.serializeCall l o →
        o.add_whitespace = true ∧ o.always_print_primitive_fields = true ∧
        o.always_print_enums_as_ints = false ∧
        o.preserve_proto_field_names = false := by
  intro e he l o heq
  subst heq
  rcases parse_bql_to_json_spec env input buf with
    ⟨_, hcall⟩ | ⟨q, _, _, hcall⟩ | ⟨q, l0, e0, _, _, _, hcall⟩ |
    ⟨q, l0, out, _, _, _, hcall⟩ <;>
    rw [hcall] at he <;> simp at he <;>
    rcases he with ⟨-, rfl⟩ <;> exact ⟨rfl, rfl, rfl, rfl⟩

/-- Witness for C6: a concrete call whose trace contains a serializer
invocation, with the options as stated. -/
theorem C6_serializer_options_witness :
    (ExtEvent.serializeCall () wrapperJsonOptions ∈
      (parse_bql_to_json (okEnv "J") (some "q") "").2.2) ∧
    (wrapperJsonOptions.add_whitespace = true ∧
     wrapperJsonOptions.always_print_primitive_fields = true ∧
     wrapperJsonOptions.always_print_enums_as_ints = false ∧
     wrapperJsonOptions.preserve_proto_field_names = false) :=
  ⟨by decide,
   C6_serializer_options (okEnv "J") (some "q") ""
     (ExtEvent.serializeCall () wrapperJsonOptions) (by decide)
     () wrapperJsonOptions rfl⟩

/-- Claim C7 counterexample: the claim says every call returns either the
serialized result or one of exactly three fixed error strings.  In the
environment okEnv with serializer output J, a call with input q while the
global buffer still holds STALE from earlier activity returns STALEJ, which
is none of those four strings: MessageToJsonString appends to the uncleared
buffer. -/
theorem C7_counterexample :
    (parse_bql_to_json (okEnv "J") (some "q") "STALE").1 = some "STALEJ" ∧
    "STALEJ" ≠ "J" ∧ "STALEJ" ≠ nullInputPayload ∧
    "STALEJ" ≠ nullLedgerPayload ∧ "STALEJ" ≠ serializeFailPayload := by
  refine ⟨rfl, ?_, ?_, ?_, ?_⟩ <;> decide

/-- Claim C7 as amended: every call to parse_bql_to_json follows the fixed
pass-through sequence with no retries: check the input is non-null, invoke
the external parse function exactly once with the raw input text and the
label, check the returned ledger is non-null, invoke the serializer exactly
once, and return either the prior buffer contents followed by the serialized
result (exactly the serialized result whenever the buffer starts empty) or
one of exactly three fixed error strings; no other outcome is possible. -/
theorem C7_pass_through_sequence {L : Type} (env : ExtEnv L)
    (input : Option String) (buf : String) :
    (input = none ∧
      parse_bql_to_json env input buf =
        (some nullInputPayload, nullInputPayload, [])) ∨
    (∃ q, input = some q ∧ env.parseString q "<wazbean>" = none ∧
      parse_bql_to_json env input buf =
        (some nullLedgerPayload, nullLedgerPayload,
         [ExtEvent.parseCall q "<wazbean>"])) ∨
    (∃ q l e, input = some q ∧ env.parseString q "<wazbean>" = some l ∧
      env.messageToJsonString l wrapperJsonOptions = Except.error e ∧
      parse_bql_to_json env input buf =
        (some serializeFailPayload, serializeFailPayload,
         [ExtEvent.parseCall q "<wazbean>",
          ExtEvent.serializeCall l wrapperJsonOptions])) ∨
    (∃ q l out, input = some q ∧ env.parseString q "<wazbean>" = some l ∧
      env.messageToJsonString l wrapperJsonOptions = Except.ok out ∧
      parse_bql_to_json env input buf =
        (some (buf ++ out), buf ++ out,
         [ExtEvent.parseCall q "<wazbean>",
          ExtEvent.serializeCall l wrapperJsonOptions])) :=
  parse_bql_to_json_spec env input buf

/-- Claim C8: parse_bql_to_json never returns a null pointer: on every path,
including all three error paths, the returned value is some of the final
contents of the process-wide result buffer. -/
theorem C8_return_never_null {L : Type} (env : ExtEnv L)
    (input : Option String) (buf : String) :
    (parse_bql_to_json env input buf).1 =
      some (parse_bql_to_json env input buf).2.1 := by
  rcases parse_bql_to_json_spec env input buf with
    ⟨_, hcall⟩ | ⟨q, _, _, hcall⟩ | ⟨q, l, e, _, _, _, hcall⟩ |
    ⟨q, l, out, _, _, _, hcall⟩ <;> rw [hcall]

/-- Claim C9: when the input pointer is null, the external parser is never
invoked: the invocation trace of the call is empty, and the only effect is
setting the result buffer to the null-input payload (which is returned). -/
theorem C9_null_input_no_parse {L : Type} (env : ExtEnv L) (buf : String) :
    parse_bql_to_json env none buf =
      (some nullInputPayload, nullInputPayload, []) := rfl

/-- Claim C10: each of the three error branches returns exactly its fixed
payload regardless of the global buffer contents left by prior calls,
because the error branches overwrite the buffer by assignment. -/
theorem C10_error_branches_overwrite {L : Type} (env : ExtEnv L)
    (q buf : String) :
    (parse_bql_to_json env none buf).1 = some nullInputPayload ∧
    (env.parseString q "<wazbean>" = none →
      (parse_bql_to_json env (some q) buf).1 = some nullLedgerPayload) ∧
    (∀ l e, env.parseString q "<wazbean>" = some l →
      env.messageToJsonString l wrapperJsonOptions = Except.error e →
      (parse_bql_to_json env (some q) buf).1 = some serializeFailPayload) := by
  refine ⟨rfl, fun h => by simp [parse_bql_to_json, h], ?_⟩
  intro l e hp hs
  simp [parse_bql_to_json, hp, hs]

/-- Witness for C10: each error branch exercised at a concrete environment
with a non-empty stale buffer. -/
theorem C10_error_branches_overwrite_witness :
    (parse_bql_to_json serializeFailEnv none "STALE").1 = some nullInputPayload ∧
    (parse_bql_to_json parseFailEnv (some "q") "STALE").1 = some nullLedgerPayload ∧
    (parse_bql_to_json serializeFailEnv (some "q") "STALE").1 =
      some serializeFailPayload :=
  ⟨(C10_error_branches_overwrite serializeFailEnv "q" "STALE").1,
   (C10_error_branches_overwrite parseFailEnv "q" "STALE").2.1 rfl,
   (C10_error_branches_overwrite serializeFailEnv "q" "STALE").2.2 () "boom" rfl rfl⟩

/-- Claim C1 fails on the code: two consecutive successful calls with the
same input q, in an environment where the parser succeeds and the serializer
emits J each time, return J and then JJ — the second call returns the first
call output prepended to the serializer output, because MessageToJsonString
appends to the global buffer and the success path never clears it. -/
theorem C1_stale_buffer_prepended :
    (runCalls (okEnv "J") "" [some "q", some "q"]).1 = [some "J", some "JJ"] ∧
    (some "JJ" : Option String) ≠ some "J" := by
  refine ⟨rfl, ?_⟩; decide

/-- Claim C2 fails on the code: parse_bql_to_json is not stateless.  With the
serializer emitting K, calling it on input q as the first call of the process
returns K, while the same call made after one earlier successful call returns
KK: the result depends on the history, not on the input alone. -/
theorem C2_not_stateless :
    (runCalls (okEnv "K") "" [some "q"]).1 = [some "K"] ∧
    (runCalls (okEnv "K") "" [some "q", some "q"]).1 = [some "K", some "KK"] ∧
    (some "K" : Option String) ≠ some "KK" := by
  refine ⟨rfl, rfl, ?_⟩; decide
